import Mathlib

/-!
Shallow embedding of `src/app.py` (wind-rose generator for historical
aerodrome weather data).

Modelling conventions:
* A CSV field that `pandas.read_csv` reads as empty/NaN is `Option.none`;
  a present field is `some s` with `s` the raw string.
* Locale decimal values (`"5,0"`) are parsed by `toNumericLocale`, the
  embedding of `pd.to_numeric(col.str.replace(',', '.'), errors='coerce')`
  restricted to plain decimal notation (optional sign, digits, optional
  fractional part); an unparseable value is `none` (pandas NaN).
* Floating point numbers are modelled by exact rationals `ℚ`.  All the
  quantities the claims mention (the two candidate conversion factors and
  the band bounds) are exactly representable questions about small decimal
  literals whose difference is far above double ulp, so results transfer.
* `pd.to_datetime(col, format='%d/%m/%Y %H%M')` raises on an unparseable
  non-null entry (its default is `errors='raise'`), yields NaT on a null
  entry.  We model it by `computeDatetime : RawRecord → Except String
  (Option Timestamp)`; the `Except.error` models the uncaught ValueError.
* `np.inf` as a band upper bound is modelled by `Option.none` (every
  finite speed is `< np.inf`).
* A matplotlib figure is modelled by the data it plots (the masked rows);
  `None` returned by `plot_single_wind_rose` is `Option.none`.
-/

namespace WindRose

/-- Replace every occurrence of the character `a` by `b`; for a
one-character pattern this is exactly `str.replace` (occurrences cannot
overlap). -/
def replaceChar (a b : Char) (s : String) : String :=
  String.mk (s.toList.map fun c => if c = a then b else c)

/-- Split a character list at every occurrence of `sep`, keeping empty
chunks, as `str.split` / `String.splitOn` do for a one-character
separator. -/
def splitOnChar (sep : Char) : List Char → List (List Char)
  | [] => [[]]
  | c :: cs =>
    match splitOnChar sep cs with
    | [] => if c = sep then [[], [c]] else [[c]]
    | g :: gs => if c = sep then [] :: g :: gs else (c :: g) :: gs

/-- Digit value of a character, `none` for a non-digit. -/
def digitVal (c : Char) : Option Nat :=
  if c.isDigit then some (c.toNat - 48) else none

/-- Parse a nonempty all-digit character list as a natural number. -/
def parseDigits : List Char → Option Nat
  | [] => none
  | cs => cs.foldl (fun acc c => acc.bind fun n => (digitVal c).map fun d => n * 10 + d)
      (some 0)

/-- Parse an unsigned decimal numeral (digits, optional point, digits). -/
def parseUnsignedDecimal (cs : List Char) : Option ℚ :=
  match splitOnChar '.' cs with
  | [ip] => (parseDigits ip).map fun n => (n : ℚ)
  | [ip, fp] =>
    if ip.isEmpty && fp.isEmpty then none
    else
      let ipart : Option Nat := if ip.isEmpty then some 0 else parseDigits ip
      let fpart : Option Nat := if fp.isEmpty then some 0 else parseDigits fp
      ipart.bind fun i => fpart.map fun f =>
        (i : ℚ) + (f : ℚ) / (10 : ℚ) ^ fp.length
  | _ => none

/-- Parse a signed decimal numeral, the float grammar `pd.to_numeric`
accepts on these inputs (scientific notation and `inf`/`nan` words never
occur in the data and are out of scope of every claim). -/
def parseDecimal (s : String) : Option ℚ :=
  match s.toList with
  | [] => none
  | c :: rest =>
    if c = '-' then (parseUnsignedDecimal rest).map Neg.neg
    else if c = '+' then parseUnsignedDecimal rest
    else parseUnsignedDecimal (c :: rest)

/-- Embedding of `pd.to_numeric(v.str.replace(',', '.'), errors='coerce')`
on one cell: `none` (NaN) stays `none`, a string has every comma replaced
by a point and is then parsed, unparseable strings coerce to `none`. -/
def toNumericLocale (v : Option String) : Option ℚ :=
  v.bind fun s => parseDecimal (replaceChar ',' '.' s)

/-- The conversion factor the source multiplies by (`app.py` line 34). -/
def knotsPerMps : ℚ := 1.94384

/-- One raw CSV row after `read_csv` and the column rename (`app.py`
lines 18–21): twelve fixed columns, empty cells as `none`. -/
structure RawRecord where
  data : Option String
  hora : Option String
  temp : Option String
  humidity : Option String
  pressure : Option String
  wind_speed : Option String
  wind_dir : Option String
  cloudiness : Option String
  insolation : Option String
  max_temp : Option String
  min_temp : Option String
  rainfall : Option String
deriving DecidableEq, Repr

/-- A parsed timestamp (what `pd.to_datetime` produces on success). -/
structure Timestamp where
  year : Nat
  month : Nat
  day : Nat
  hour : Nat
  minute : Nat
deriving DecidableEq, Repr

def isLeap (y : Nat) : Bool :=
  (y % 4 == 0 && y % 100 != 0) || y % 400 == 0

def daysInMonth (y m : Nat) : Nat :=
  if m = 2 then (if isLeap y then 29 else 28)
  else if m = 4 ∨ m = 6 ∨ m = 9 ∨ m = 11 then 30
  else 31

/-- Left-pad with zeros to width `w` (`str.zfill` on digit strings). -/
def zfill (w : Nat) (cs : List Char) : List Char :=
  if w ≤ cs.length then cs else List.replicate (w - cs.length) '0' ++ cs

/-- Embedding of `strptime` with format `%d/%m/%Y %H%M` applied to
`dateStr ++ " " ++ timeStr`: day/month of one or two digits, four-digit
year, calendar-valid date, four-digit `HHMM` with `hour < 24`,
`minute < 60`.  `none` models the ValueError. -/
def parseTimestamp (dateChars timeChars : List Char) : Option Timestamp :=
  match splitOnChar '/' dateChars with
  | [ds, ms, ys] =>
    if ds.length ≤ 2 ∧ ms.length ≤ 2 ∧ ys.length = 4 then
      (parseDigits ds).bind fun d =>
        (parseDigits ms).bind fun m =>
          (parseDigits ys).bind fun y =>
            if timeChars.length = 4 then
              (parseDigits (timeChars.take 2)).bind fun h =>
                (parseDigits (timeChars.drop 2)).bind fun mi =>
                  if 1 ≤ m ∧ m ≤ 12 ∧ 1 ≤ d ∧ d ≤ daysInMonth y m ∧ h < 24 ∧ mi < 60 then
                    some ⟨y, m, d, h, mi⟩
                  else none
            else none
    else none
  | _ => none

/-- Embedding of `app.py` line 24 for one row:
`pd.to_datetime(df['Data'] + ' ' + df['Hora (UTC)'].astype(str).str.zfill(4),
format='%d/%m/%Y %H%M')`.  A null date gives NaT (`ok none`); a non-null
date whose combined string does not match the format raises (`error`).
A null time stringifies to `"nan"`, which never matches the format. -/
def computeDatetime (r : RawRecord) : Except String (Option Timestamp) :=
  match r.data with
  | none => Except.ok none
  | some d =>
    let horaStr := match r.hora with
      | some h => h
      | none => "nan"
    match parseTimestamp d.toList (zfill 4 horaStr.toList) with
    | some t => Except.ok (some t)
    | none => Except.error "ValueError: time data does not match format %d/%m/%Y %H%M"

/-- One row of a processed dataframe: the original columns (kept unchanged
by pandas; `raw.wind_speed`/`raw.wind_dir` here record the pre-coercion
strings the source overwrites), the combined datetime (NaT as `none`), and
the numeric wind columns after coercion, with `wind_speed` in knots. -/
structure Row where
  raw : RawRecord
  datetime : Option Timestamp
  wind_speed : ℚ
  wind_dir : ℚ
deriving DecidableEq, Repr

/-- Embedding of `app.py` lines 34–40 on one row: coerce both wind columns
(comma → point, to-numeric), multiply the speed by 1.94384, and drop the
row (`dropna(subset=['wind_speed', 'wind_dir'])`) if either coercion gave
NaN. -/
def coerceRow (p : RawRecord × Option Timestamp) : Option Row :=
  match toNumericLocale p.1.wind_speed, toNumericLocale p.1.wind_dir with
  | some s, some d => some ⟨p.1, p.2, s * knotsPerMps, d⟩
  | _, _ => none

/-- An uploaded file: its name and its rows as read by `read_csv` after
the rename (the fixed 12-column record parser is the embedding boundary). -/
structure UploadedFile where
  name : String
  rows : List RawRecord
deriving DecidableEq, Repr

/-- Result of processing one file inside the loop of `process_csv_data`:
either a dataframe appended to `all_dataframes` (possibly with zero rows)
or the whole-file-empty classification (`continue` after appending the
name to `files_without_data`). -/
inductive FileResult where
  | contributing (rows : List Row)
  | empty
deriving DecidableEq, Repr

/-- `mapM` for `Except`, spelled out for easy induction: stops at the
first error, like a raising pandas column operation. -/
def mapExcept (g : α → Except String β) : List α → Except String (List β)
  | [] => Except.ok []
  | x :: xs =>
    match g x with
    | Except.error e => Except.error e
    | Except.ok y =>
      match mapExcept g xs with
      | Except.error e => Except.error e
      | Except.ok ys => Except.ok (y :: ys)

/-- Embedding of one iteration of the loop in `process_csv_data`
(`app.py` lines 16–43): build the datetime column (line 24, raising on a
bad entry), test whole-file emptiness of the raw wind columns (lines
27–32: `isnull().sum() == len(df)`), and otherwise coerce and drop rows
(lines 34–40). -/
def processFile (f : UploadedFile) : Except String FileResult :=
  match mapExcept (fun r => (computeDatetime r).map fun dt => (r, dt)) f.rows with
  | Except.error e => Except.error e
  | Except.ok rows1 =>
    let no_wind_speed_data := f.rows.all fun r => r.wind_speed.isNone
    let no_wind_dir_data := f.rows.all fun r => r.wind_dir.isNone
    if no_wind_speed_data || no_wind_dir_data then Except.ok FileResult.empty
    else Except.ok (FileResult.contributing (rows1.filterMap coerceRow))

/-- The rows a file contributes to the concatenation: its processed rows
when it is contributing, nothing otherwise. -/
def contributedRows (f : UploadedFile) : List Row :=
  match processFile f with
  | Except.ok (FileResult.contributing rs) => rs
  | _ => []

/-- One loop iteration paired with the file name (for the
`files_without_data.append(file.name)` bookkeeping). -/
def processNamed (f : UploadedFile) : Except String (String × FileResult) :=
  (processFile f).map fun r => (f.name, r)

/-- The dataframe a loop iteration appends to `all_dataframes`, if any. -/
def dfOf (p : String × FileResult) : Option (List Row) :=
  match p.2 with
  | FileResult.contributing rows => some rows
  | FileResult.empty => none

/-- The name a loop iteration appends to `files_without_data`, if any. -/
def badNameOf (p : String × FileResult) : Option String :=
  match p.2 with
  | FileResult.empty => some p.1
  | FileResult.contributing _ => none

/-- Embedding of `process_csv_data` (`app.py` lines 10–53): process each
file in upload order, collect names of non-contributing files, return
`(None, names)` when no dataframe was appended and otherwise the
concatenation (`pd.concat(..., ignore_index=True)`).  The second
`dropna` at line 51 is the identity here because every appended row
already has both numeric wind fields.  An exception from line 24
propagates out (`Except.error`). -/
def process_csv_data (files : List UploadedFile) :
    Except String (Option (List Row) × List String) :=
  match mapExcept processNamed files with
  | Except.error e => Except.error e
  | Except.ok results =>
    let all_dataframes := results.filterMap dfOf
    let files_without_data := results.filterMap badNameOf
    if all_dataframes.length = 0 then Except.ok (none, files_without_data)
    else Except.ok (some all_dataframes.flatten, files_without_data)

/-- A speed band `(min_speed, max_speed, title)`; `max = none` models
`np.inf`. -/
structure SpeedRange where
  min : ℚ
  max : Option ℚ
  title : String
deriving DecidableEq, Repr

/-- The six canonical bands (`app.py` lines 73–80 and 146–153). -/
def speed_ranges : List SpeedRange :=
  [⟨1, some 5, "Velocidade: 1-5 kt"⟩,
   ⟨6, some 10, "Velocidade: 6-10 kt"⟩,
   ⟨11, some 15, "Velocidade: 11-15 kt"⟩,
   ⟨16, some 20, "Velocidade: 16-20 kt"⟩,
   ⟨21, some 30, "Velocidade: 21-30 kt"⟩,
   ⟨31, none, "Velocidade: > 30 kt"⟩]

/-- The mask `(data['wind_speed'] >= min_speed) & (data['wind_speed'] <
max_speed)` on one row; every finite speed is `< np.inf`. -/
def inBand (s : ℚ) (b : SpeedRange) : Bool :=
  decide (b.min ≤ s) &&
    (match b.max with
     | some m => decide (s < m)
     | none => true)

/-- The rows of `data` selected by a band's mask (`data.loc[mask]`). -/
def bandMask (data : List Row) (b : SpeedRange) : List Row :=
  data.filter fun r => inBand r.wind_speed b

/-- Embedding of `plot_combined_wind_roses` (`app.py` lines 70–93): for
`i, band` in `enumerate(speed_ranges, 1)`, skip the band when its mask
selects no row, otherwise add a panel at grid position `i` of the 2×3
grid (`fig.add_subplot(2, 3, i, ...)`).  The figure is modelled as the
list of (grid position, panel title) actually drawn. -/
def plot_combined_wind_roses (data : List Row) : List (Nat × String) :=
  (speed_ranges.enum.map fun p => (p.1 + 1, p.2)).filterMap fun p =>
    if (bandMask data p.2).length = 0 then none
    else some (p.1, p.2.title)

/-- Embedding of `plot_single_wind_rose` (`app.py` lines 96–103): `None`
when the mask selects no row, otherwise the figure, modelled by the
masked rows it plots. -/
def plot_single_wind_rose (data : List Row) (min_speed : ℚ) (max_speed : Option ℚ)
    (_title : String) : Option (List Row) :=
  let mask := data.filter fun r => inBand r.wind_speed ⟨min_speed, max_speed, ""⟩
  if mask.length = 0 then none else some mask

/-- Download file name for a band chart (`app.py` line 169):
`title.replace(' ', '_').replace(':', '')` plus suffix. -/
def downloadFileName (title : String) : String :=
  ((title.replace " " "_").replace ":" "") ++ "_wind_rose.png"

/-- What the per-band section of the page shows (`app.py` lines 156–173):
a chart with its download button, or the no-data message. -/
inductive BandView where
  | chartWithDownload (title fileName : String)
  | noDataMessage (title : String)
deriving DecidableEq, Repr

/-- One iteration of the per-band loop (`app.py` lines 156–173). -/
def bandSection (data : List Row) (b : SpeedRange) : BandView :=
  match plot_single_wind_rose data b.min b.max b.title with
  | some _ => BandView.chartWithDownload b.title (downloadFileName b.title)
  | none => BandView.noDataMessage b.title

/-- The outcome of pressing "Generate Wind Rose Plots". -/
inductive MainOutcome where
  /-- an exception escaped (e.g. the ValueError of line 24, or
  `plot_combined_wind_roses(None)`) -/
  | crashed (msg : String)
  /-- `st.write("No valid data found...")` then `st.stop()` before any
  rendering (`app.py` lines 125–127) -/
  | noValidData
  /-- the rendered page: the warning list (shown iff nonempty), the
  combined figure's panels, and the six per-band sections in order -/
  | rendered (warning : List String) (combinedPanels : List (Nat × String))
      (bandViews : List BandView)
deriving DecidableEq, Repr

/-- Embedding of the Streamlit flow after the button press (`app.py`
lines 121–173). -/
def mainFlow (files : List UploadedFile) : MainOutcome :=
  match process_csv_data files with
  | Except.error e => MainOutcome.crashed e
  | Except.ok (combined_data, invalid_files) =>
    if invalid_files.length = files.length then MainOutcome.noValidData
    else
      match combined_data with
      | none => MainOutcome.crashed "TypeError: NoneType"
      | some data =>
        MainOutcome.rendered invalid_files (plot_combined_wind_roses data)
          (speed_ranges.map fun b => bandSection data b)

/-! ### Concrete fixtures (used in witnesses and counterexamples) -/

/-- Fixture: a fully parseable row — 1 Jan 2020, 12:00 UTC, wind speed
`"5,0"` m/s, direction `"90"` degrees. -/
def recGood : RawRecord :=
  ⟨some "01/01/2020", some "1200", none, none, none, some "5,0", some "90", none, none,
    none, none, none⟩

/-- Fixture: like `recGood` with speed `"10,5"` m/s, direction `"180,0"`. -/
def recGood2 : RawRecord := { recGood with wind_speed := some "10,5", wind_dir := some "180,0" }

/-- Fixture: like `recGood` with an empty wind-speed cell. -/
def recNoSpeed : RawRecord := { recGood with wind_speed := none }

/-- Fixture: like `recGood` with an unparseable date. -/
def recBadDate : RawRecord := { recGood with data := some "99/99/2020" }

/-- Fixture: like `recGood` with the out-of-range direction `"400,5"`. -/
def recDir400 : RawRecord := { recGood with wind_dir := some "400,5" }

/-- Fixture: like `recGood` with a non-numeric wind speed. -/
def recBadSpeed : RawRecord := { recGood with wind_speed := some "abc" }

/-- The processed row for `recGood`. -/
def rowGood : Row := ⟨recGood, some ⟨2020, 1, 1, 12, 0⟩, 5 * knotsPerMps, 90⟩

/-- The processed row for `recGood2`. -/
def rowGood2 : Row := ⟨recGood2, some ⟨2020, 1, 1, 12, 0⟩, (10.5 : ℚ) * knotsPerMps, 180⟩

/-- The processed row for `recDir400`. -/
def rowDir400 : Row := ⟨recDir400, some ⟨2020, 1, 1, 12, 0⟩, 5 * knotsPerMps, (400.5 : ℚ)⟩

/-- Fixture file: spec §8 Scenario 1 (speeds `"5,0"`, `"10,5"`, empty). -/
def fileA : UploadedFile := ⟨"a.csv", [recGood, recGood2, recNoSpeed]⟩

/-- Fixture file with a single good row. -/
def fileB : UploadedFile := ⟨"b.csv", [recGood]⟩

/-- A second fixture file with the same single good row as `fileB`. -/
def fileC : UploadedFile := ⟨"c.csv", [recGood]⟩

/-- Fixture file whose one row has an unparseable date. -/
def fileBadDate : UploadedFile := ⟨"bad.csv", [recBadDate]⟩

/-- Fixture file whose wind-speed column is entirely empty while the
direction column has values. -/
def fileEmptySpeed : UploadedFile := ⟨"empty.csv", [recNoSpeed, recNoSpeed]⟩

/-- Fixture file with the out-of-range direction row. -/
def fileDir400 : UploadedFile := ⟨"dir.csv", [recDir400]⟩

/-- Fixture file that passes the emptiness check but whose every row is
dropped by numeric coercion. -/
def fileAllDropped : UploadedFile := ⟨"dropped.csv", [recBadSpeed]⟩

/-- Fixture dataset row with speed 7.2 kt (spec §8 Scenario 4). -/
def row72 : Row := ⟨recGood, none, 36 / 5, 90⟩

/-- The wind speed of the first processed row of a file result, for
stating counterexamples about the conversion factor. -/
def firstRowSpeed (r : Except String FileResult) : Option ℚ :=
  match r with
  | Except.ok (FileResult.contributing (row :: _)) => some row.wind_speed
  | _ => none

/-- The band of `speed_ranges` at a position, spelled out so it reduces
on case analysis; `bandAt_get` below identifies it with
`speed_ranges.get`. -/
def bandAt : Fin 6 → SpeedRange
  | ⟨0, _⟩ => ⟨1, some 5, "Velocidade: 1-5 kt"⟩
  | ⟨1, _⟩ => ⟨6, some 10, "Velocidade: 6-10 kt"⟩
  | ⟨2, _⟩ => ⟨11, some 15, "Velocidade: 11-15 kt"⟩
  | ⟨3, _⟩ => ⟨16, some 20, "Velocidade: 16-20 kt"⟩
  | ⟨4, _⟩ => ⟨21, some 30, "Velocidade: 21-30 kt"⟩
  | ⟨5, _⟩ => ⟨31, none, "Velocidade: > 30 kt"⟩

/-! ### General lemmas about the pipeline -/

theorem mapExcept_nil {g : α → Except String β} : mapExcept g [] = Except.ok [] := rfl

theorem mapExcept_cons {g : α → Except String β} {x : α} {xs : List α} :
    mapExcept g (x :: xs) =
      match g x with
      | Except.error e => Except.error e
      | Except.ok y =>
        match mapExcept g xs with
        | Except.error e => Except.error e
        | Except.ok ys => Except.ok (y :: ys) := rfl

theorem mapExcept_ok_length {g : α → Except String β} {l : List α} {ys : List β}
    (h : mapExcept g l = Except.ok ys) : ys.length = l.length := by
  induction l generalizing ys with
  | nil =>
    rw [mapExcept_nil] at h
    cases h
    rfl
  | cons x xs ih =>
    rw [mapExcept_cons] at h
    cases hx : g x with
    | error e => rw [hx] at h; cases h
    | ok y =>
      rw [hx] at h
      cases hm : mapExcept g xs with
      | error e => rw [hm] at h; cases h
      | ok ys2 =>
        rw [hm] at h
        cases h
        simp [ih hm]

theorem mapExcept_ok_of_mem {g : α → Except String β} {l : List α} {ys : List β} {x : α}
    (h : mapExcept g l = Except.ok ys) (hx : x ∈ l) :
    ∃ y, g x = Except.ok y ∧ y ∈ ys := by
  induction l generalizing ys with
  | nil => cases hx
  | cons a as ih =>
    rw [mapExcept_cons] at h
    cases ha : g a with
    | error e => rw [ha] at h; cases h
    | ok y =>
      rw [ha] at h
      cases hm : mapExcept g as with
      | error e => rw [hm] at h; cases h
      | ok ys2 =>
        rw [hm] at h
        cases h
        rcases List.mem_cons.mp hx with hx | hx
        · exact ⟨y, hx ▸ ha, List.mem_cons_self _ _⟩
        · obtain ⟨y2, hy2, hy2m⟩ := ih hm hx
          exact ⟨y2, hy2, List.mem_cons_of_mem _ hy2m⟩

theorem mapExcept_mem_of_ok {g : α → Except String β} {l : List α} {ys : List β} {y : β}
    (h : mapExcept g l = Except.ok ys) (hy : y ∈ ys) :
    ∃ x, x ∈ l ∧ g x = Except.ok y := by
  induction l generalizing ys with
  | nil =>
    rw [mapExcept_nil] at h
    cases h
    cases hy
  | cons a as ih =>
    rw [mapExcept_cons] at h
    cases ha : g a with
    | error e => rw [ha] at h; cases h
    | ok y1 =>
      rw [ha] at h
      cases hm : mapExcept g as with
      | error e => rw [hm] at h; cases h
      | ok ys2 =>
        rw [hm] at h
        cases h
        rcases List.mem_cons.mp hy with hy | hy
        · exact ⟨a, List.mem_cons_self _ _, hy ▸ ha⟩
        · obtain ⟨x, hxm, hx⟩ := ih hm hy
          exact ⟨x, List.mem_cons_of_mem _ hxm, hx⟩

theorem mapExcept_error_of_mem {g : α → Except String β} {l : List α} {x : α} {e : String}
    (hx : x ∈ l) (he : g x = Except.error e) :
    ∃ e2, mapExcept g l = Except.error e2 := by
  induction l with
  | nil => cases hx
  | cons a as ih =>
    rcases List.mem_cons.mp hx with hx | hx
    · subst hx
      exact ⟨e, by rw [mapExcept_cons, he]⟩
    · obtain ⟨e2, he2⟩ := ih hx
      rw [mapExcept_cons]
      cases ha : g a with
      | error e3 => exact ⟨e3, rfl⟩
      | ok y => exact ⟨e2, by rw [he2]⟩

theorem mapExcept_all_ok {g : α → Except String β} {h : α → β} {l : List α}
    (hall : ∀ x ∈ l, g x = Except.ok (h x)) :
    mapExcept g l = Except.ok (l.map h) := by
  induction l with
  | nil => rfl
  | cons a as ih =>
    rw [mapExcept_cons, hall a (List.mem_cons_self _ _),
      ih fun x hx => hall x (List.mem_cons_of_mem _ hx)]
    rfl

theorem processNamed_ok {f : UploadedFile} {y : String × FileResult}
    (h : processNamed f = Except.ok y) :
    processFile f = Except.ok y.2 ∧ y.1 = f.name := by
  unfold processNamed at h
  cases hp : processFile f with
  | error e => rw [hp] at h; cases h
  | ok r =>
    rw [hp] at h
    cases h
    exact ⟨rfl, rfl⟩

theorem processNamed_of_processFile {f : UploadedFile} {r : FileResult}
    (h : processFile f = Except.ok r) : processNamed f = Except.ok (f.name, r) := by
  unfold processNamed
  rw [h]
  rfl

theorem df_bad_length_split (results : List (String × FileResult)) :
    (results.filterMap dfOf).length + (results.filterMap badNameOf).length =
      results.length := by
  induction results with
  | nil => rfl
  | cons p ps ih =>
    cases hp : p.2 <;>
      simp only [List.filterMap_cons, dfOf, badNameOf, hp, List.length_cons] <;>
      omega

theorem flatten_eq_flatMap_contributed {files : List UploadedFile}
    {results : List (String × FileResult)}
    (h : mapExcept processNamed files = Except.ok results) :
    (results.filterMap dfOf).flatten = files.flatMap contributedRows := by
  induction files generalizing results with
  | nil =>
    rw [mapExcept_nil] at h
    cases h
    rfl
  | cons f fs ih =>
    rw [mapExcept_cons] at h
    cases ha : processNamed f with
    | error e => rw [ha] at h; cases h
    | ok y =>
      rw [ha] at h
      cases hm : mapExcept processNamed fs with
      | error e => rw [hm] at h; cases h
      | ok ys =>
        rw [hm] at h
        cases h
        obtain ⟨hpf, -⟩ := processNamed_ok ha
        rw [List.flatMap_cons, ← ih hm]
        cases hr : y.2 with
        | contributing rs =>
          simp only [List.filterMap_cons, dfOf, hr, List.flatten_cons]
          rw [contributedRows, hpf, hr]
        | empty =>
          simp only [List.filterMap_cons, dfOf, hr]
          rw [contributedRows, hpf, hr]
          rfl

theorem process_csv_data_ok {files : List UploadedFile} {res : Option (List Row)}
    {bad : List String} (h : process_csv_data files = Except.ok (res, bad)) :
    ∃ results, mapExcept processNamed files = Except.ok results ∧
      bad = results.filterMap badNameOf ∧
      (((results.filterMap dfOf).length = 0 ∧ res = none) ∨
       ((results.filterMap dfOf).length ≠ 0 ∧
        res = some (results.filterMap dfOf).flatten)) := by
  unfold process_csv_data at h
  cases hm : mapExcept processNamed files with
  | error e => rw [hm] at h; cases h
  | ok results =>
    rw [hm] at h
    dsimp only at h
    refine ⟨results, rfl, ?_⟩
    by_cases hz : (results.filterMap dfOf).length = 0
    · rw [if_pos hz] at h
      cases h
      exact ⟨rfl, Or.inl ⟨hz, rfl⟩⟩
    · rw [if_neg hz] at h
      cases h
      exact ⟨rfl, Or.inr ⟨hz, rfl⟩⟩

theorem inBand_true_of {s : ℚ} {b : SpeedRange} (h1 : b.min ≤ s)
    (h2 : ∀ m, b.max = some m → s < m) : inBand s b = true := by
  unfold inBand
  cases hm : b.max with
  | none => simp [h1]
  | some m => simp [h1, h2 m hm]

theorem inBand_false_of_lt {s : ℚ} {b : SpeedRange} (h : s < b.min) : inBand s b = false := by
  unfold inBand
  simp [not_le.mpr h]

theorem inBand_false_of_ge {s : ℚ} {b : SpeedRange} {m : ℚ} (hm : b.max = some m)
    (h : m ≤ s) : inBand s b = false := by
  unfold inBand
  rw [hm]
  simp [not_lt.mpr h]

theorem inBand_title_irrel (s : ℚ) (b : SpeedRange) (t : String) :
    inBand s ⟨b.min, b.max, t⟩ = inBand s b := by
  cases b
  rfl

/-! ### Evaluations of the fixtures -/

theorem processFile_fileA_eq :
    processFile fileA = Except.ok (FileResult.contributing [rowGood, rowGood2]) := by
  simp [processFile, mapExcept, computeDatetime, parseTimestamp, zfill, splitOnChar,
    parseDigits, digitVal, daysInMonth, isLeap, coerceRow, toNumericLocale, replaceChar,
    parseDecimal, parseUnsignedDecimal, Except.map, fileA, recGood, recGood2, recNoSpeed,
    rowGood, rowGood2]
  norm_num

theorem processFile_fileB_eq :
    processFile fileB = Except.ok (FileResult.contributing [rowGood]) := by
  simp [processFile, mapExcept, computeDatetime, parseTimestamp, zfill, splitOnChar,
    parseDigits, digitVal, daysInMonth, isLeap, coerceRow, toNumericLocale, replaceChar,
    parseDecimal, parseUnsignedDecimal, Except.map, fileB, recGood, rowGood]

theorem processFile_fileC_eq :
    processFile fileC = Except.ok (FileResult.contributing [rowGood]) := by
  simp [processFile, mapExcept, computeDatetime, parseTimestamp, zfill, splitOnChar,
    parseDigits, digitVal, daysInMonth, isLeap, coerceRow, toNumericLocale, replaceChar,
    parseDecimal, parseUnsignedDecimal, Except.map, fileC, recGood, rowGood]

theorem processFile_fileEmptySpeed_eq :
    processFile fileEmptySpeed = Except.ok FileResult.empty := by
  simp [processFile, mapExcept, computeDatetime, parseTimestamp, zfill, splitOnChar,
    parseDigits, digitVal, daysInMonth, isLeap, Except.map, fileEmptySpeed, recNoSpeed,
    recGood]

theorem processFile_fileDir400_eq :
    processFile fileDir400 = Except.ok (FileResult.contributing [rowDir400]) := by
  simp [processFile, mapExcept, computeDatetime, parseTimestamp, zfill, splitOnChar,
    parseDigits, digitVal, daysInMonth, isLeap, coerceRow, toNumericLocale, replaceChar,
    parseDecimal, parseUnsignedDecimal, Except.map, fileDir400, recDir400, recGood,
    rowDir400]
  norm_num

theorem processFile_fileAllDropped_eq :
    processFile fileAllDropped = Except.ok (FileResult.contributing []) := by
  simp [processFile, mapExcept, computeDatetime, parseTimestamp, zfill, splitOnChar,
    parseDigits, digitVal, daysInMonth, isLeap, coerceRow, toNumericLocale, replaceChar,
    parseDecimal, parseUnsignedDecimal, Except.map, fileAllDropped, recBadSpeed, recGood]

theorem computeDatetime_recBadDate :
    computeDatetime recBadDate =
      Except.error "ValueError: time data does not match format %d/%m/%Y %H%M" := by
  simp [computeDatetime, parseTimestamp, zfill, splitOnChar, parseDigits, digitVal,
    daysInMonth, isLeap, recBadDate, recGood]

theorem process_csv_data_fileEmptySpeed :
    process_csv_data [fileEmptySpeed] = Except.ok (none, ["empty.csv"]) := by
  unfold process_csv_data
  rw [mapExcept_cons, processNamed_of_processFile processFile_fileEmptySpeed_eq,
    mapExcept_nil]
  simp [dfOf, badNameOf, fileEmptySpeed]

theorem process_csv_data_fileAllDropped :
    process_csv_data [fileAllDropped] = Except.ok (some [], []) := by
  unfold process_csv_data
  rw [mapExcept_cons, processNamed_of_processFile processFile_fileAllDropped_eq,
    mapExcept_nil]
  simp [dfOf, badNameOf, fileAllDropped]

/-! ### Claims -/

/-- C1 (counterexample): the row whose raw wind speed is `"5,0"` m/s is
converted to `5 * 1.94384 = 9.7192` knots, which is not
`5 * 1.9438444924406 = 9.7192224622030` knots: the code multiplies by
the truncated factor 1.94384, not by 1.9438444924406. -/
theorem C1_counterexample :
    firstRowSpeed (processFile fileA) = some (5 * knotsPerMps) ∧
    firstRowSpeed (processFile fileA) ≠ some ((5 : ℚ) * 1.9438444924406) := by
  rw [processFile_fileA_eq]
  constructor
  · simp [firstRowSpeed, rowGood]
  · simp only [firstRowSpeed, rowGood, ne_eq, Option.some.injEq, knotsPerMps]
    norm_num

/-- C1 (amended): for every row that survives normalization, its
`wind_speed` equals the parsed meters-per-second value multiplied by
exactly 1.94384 (the factor the source uses; exact over ℚ). -/
theorem C1_speed_factor {f : UploadedFile} {rows : List Row} {r : Row}
    (hp : processFile f = Except.ok (FileResult.contributing rows)) (hr : r ∈ rows) :
    ∃ v, toNumericLocale r.raw.wind_speed = some v ∧ r.wind_speed = v * knotsPerMps ∧
      knotsPerMps = 1.94384 := by
  unfold processFile at hp
  cases hm : mapExcept (fun r => (computeDatetime r).map fun dt => (r, dt)) f.rows with
  | error e => rw [hm] at hp; cases hp
  | ok rows1 =>
    rw [hm] at hp
    dsimp only at hp
    by_cases hempty : ((f.rows.all fun r => r.wind_speed.isNone) ||
        (f.rows.all fun r => r.wind_dir.isNone)) = true
    · rw [if_pos hempty] at hp
      simp at hp
    · rw [if_neg hempty] at hp
      simp only [Except.ok.injEq, FileResult.contributing.injEq] at hp
      subst hp
      obtain ⟨p, -, hcp⟩ := List.mem_filterMap.mp hr
      unfold coerceRow at hcp
      cases hs : toNumericLocale p.1.wind_speed with
      | none => rw [hs] at hcp; cases hcp
      | some v =>
        rw [hs] at hcp
        cases hd : toNumericLocale p.1.wind_dir with
        | none => rw [hd] at hcp; cases hcp
        | some d =>
          rw [hd] at hcp
          cases hcp
          exact ⟨v, hs, rfl, rfl⟩

/-- Witness for `C1_speed_factor` at the Scenario-1 file. -/
theorem C1_speed_factor_witness :
    processFile fileA = Except.ok (FileResult.contributing [rowGood, rowGood2]) ∧
    rowGood ∈ [rowGood, rowGood2] ∧
    (∃ v, toNumericLocale rowGood.raw.wind_speed = some v ∧
      rowGood.wind_speed = v * knotsPerMps ∧ knotsPerMps = 1.94384) :=
  ⟨processFile_fileA_eq, List.mem_cons_self _ _,
    C1_speed_factor processFile_fileA_eq (List.mem_cons_self _ _)⟩

/-- C2 (counterexample): a file containing a row whose date `"99/99/2020"`
does not parse makes `process_csv_data` raise — the row is not dropped and
processing does not continue. -/
theorem C2_counterexample :
    process_csv_data [fileBadDate] =
      Except.error "ValueError: time data does not match format %d/%m/%Y %H%M" := by
  have hpf : processFile fileBadDate =
      Except.error "ValueError: time data does not match format %d/%m/%Y %H%M" := by
    unfold processFile
    rw [show fileBadDate.rows = [recBadDate] from rfl, mapExcept_cons,
      computeDatetime_recBadDate]
    rfl
  unfold process_csv_data
  rw [mapExcept_cons]
  rw [show processNamed fileBadDate =
      Except.error "ValueError: time data does not match format %d/%m/%Y %H%M" by
    unfold processNamed; rw [hpf]; rfl]

/-- C2 (amended): a row whose non-null date/time fails to parse under the
day/month/year hour-minute format makes the datetime conversion raise for
the whole request: `process_csv_data` returns an error, reaching no file;
the failure is fatal, not a per-row drop. -/
theorem C2_fatal_datetime {files : List UploadedFile} {f : UploadedFile} {r : RawRecord}
    {e : String} (hf : f ∈ files) (hr : r ∈ f.rows)
    (he : computeDatetime r = Except.error e) :
    ∃ e2, process_csv_data files = Except.error e2 := by
  obtain ⟨e2, he2⟩ := mapExcept_error_of_mem
    (g := fun r => (computeDatetime r).map fun dt => (r, dt)) hr
    (by dsimp only; rw [he]; rfl)
  have hpf : processFile f = Except.error e2 := by
    unfold processFile
    rw [he2]
  have hpn : processNamed f = Except.error e2 := by
    unfold processNamed
    rw [hpf]
    rfl
  obtain ⟨e3, he3⟩ := mapExcept_error_of_mem hf hpn
  refine ⟨e3, ?_⟩
  unfold process_csv_data
  rw [he3]

/-- Witness for `C2_fatal_datetime` at the bad-date file. -/
theorem C2_fatal_datetime_witness :
    fileBadDate ∈ [fileBadDate] ∧ recBadDate ∈ fileBadDate.rows ∧
    computeDatetime recBadDate =
      Except.error "ValueError: time data does not match format %d/%m/%Y %H%M" ∧
    ∃ e2, process_csv_data [fileBadDate] = Except.error e2 :=
  ⟨List.mem_cons_self _ _, List.mem_cons_self _ _, computeDatetime_recBadDate,
    C2_fatal_datetime (List.mem_cons_self _ _) (List.mem_cons_self _ _)
      computeDatetime_recBadDate⟩

/-- C3: over any speed, the six half-open band tests are pairwise
disjoint (any two band subsets have empty intersection), and a speed
below 1 kt or in the gap `[5, 6)` — in particular exactly 5.0 kt —
matches no band at all. -/
theorem C3_partition_gaps (s : ℚ) :
    List.Pairwise (fun a b => ¬(inBand s a = true ∧ inBand s b = true)) speed_ranges ∧
    ((s < 1 ∨ (5 ≤ s ∧ s < 6)) → ∀ b ∈ speed_ranges, inBand s b = false) := by
  have hdis : ∀ a b c : ℚ, ∀ mx : Option ℚ, ∀ t1 t2 : String, b ≤ c →
      ¬(inBand s ⟨a, some b, t1⟩ = true ∧ inBand s ⟨c, mx, t2⟩ = true) := by
    rintro a b c mx t1 t2 hbc ⟨h1, h2⟩
    simp only [inBand, Bool.and_eq_true, decide_eq_true_eq] at h1 h2
    exact absurd (lt_of_lt_of_le (lt_of_lt_of_le h1.2 hbc) h2.1) (not_lt.mpr le_rfl)
  constructor
  · simp only [speed_ranges, List.pairwise_cons, List.mem_cons, List.mem_singleton,
      List.not_mem_nil, or_false, List.Pairwise.nil, and_true]
    refine ⟨?_, ?_, ?_, ?_, ?_, ?_⟩ <;> intro b hb <;>
      rcases hb with rfl | rfl | rfl | rfl | rfl | rfl <;>
      exact hdis _ _ _ _ _ _ (by norm_num)
  · rintro hs b hb
    rcases hs with hs | ⟨hs5, hs6⟩
    · fin_cases hb
      · exact inBand_false_of_lt (by dsimp only; linarith)
      all_goals exact inBand_false_of_lt (by dsimp only; linarith)
    · fin_cases hb
      · exact inBand_false_of_ge rfl hs5
      all_goals exact inBand_false_of_lt (by dsimp only; linarith)

/-- Witness for `C3_partition_gaps` at speed exactly 5.0 kt. -/
theorem C3_partition_gaps_witness :
    ((5 : ℚ) < 1 ∨ ((5 : ℚ) ≤ 5 ∧ (5 : ℚ) < 6)) ∧
    (∀ b ∈ speed_ranges, inBand (5 : ℚ) b = false) :=
  ⟨Or.inr ⟨le_refl 5, by norm_num⟩,
    (C3_partition_gaps 5).2 (Or.inr ⟨le_refl 5, by norm_num⟩)⟩

theorem filterMap_dfOf_empty (l : List UploadedFile) :
    (l.map fun f => (f.name, FileResult.empty)).filterMap dfOf = [] := by
  induction l with
  | nil => rfl
  | cons a as ih => simp [List.filterMap_cons, dfOf, ih]

theorem filterMap_badNameOf_empty (l : List UploadedFile) :
    (l.map fun f => (f.name, FileResult.empty)).filterMap badNameOf =
      l.map fun f => f.name := by
  induction l with
  | nil => rfl
  | cons a as ih => simpa [List.filterMap_cons, badNameOf] using ih

/-- C4: a file whose wind-speed column (or wind-direction column) is
entirely empty/null is classified non-contributing — even when the other
wind column has values — its name is collected for the warning, and it
contributes zero rows to the unified dataset (`processFile` returns
`FileResult.empty`, so no dataframe of it is concatenated). -/
theorem C4_empty_file_excluded {files : List UploadedFile} {f : UploadedFile}
    {res : Option (List Row)} {bad : List String}
    (hf : f ∈ files)
    (hempty : (f.rows.all fun r => r.wind_speed.isNone) = true ∨
              (f.rows.all fun r => r.wind_dir.isNone) = true)
    (hok : process_csv_data files = Except.ok (res, bad)) :
    f.name ∈ bad ∧ processFile f = Except.ok FileResult.empty ∧
      contributedRows f = [] := by
  obtain ⟨results, hm, hbad, -⟩ := process_csv_data_ok hok
  obtain ⟨y, hy, hym⟩ := mapExcept_ok_of_mem hm hf
  obtain ⟨hpf, hyn⟩ := processNamed_ok hy
  have hfe : processFile f = Except.ok FileResult.empty := by
    have hc : ((f.rows.all fun r => r.wind_speed.isNone) ||
        (f.rows.all fun r => r.wind_dir.isNone)) = true := by
      rcases hempty with h | h <;> simp [h]
    unfold processFile at hpf ⊢
    cases hmr : mapExcept (fun r => (computeDatetime r).map fun dt => (r, dt)) f.rows with
    | error e => rw [hmr] at hpf; cases hpf
    | ok rows1 =>
      dsimp only
      rw [if_pos hc]
  have hy2 : y.2 = FileResult.empty := by
    have h2 := hfe.symm.trans hpf
    exact (Except.ok.inj h2).symm
  refine ⟨?_, hfe, ?_⟩
  · rw [hbad]
    refine List.mem_filterMap.mpr ⟨y, hym, ?_⟩
    unfold badNameOf
    rw [hy2]
    dsimp only
    rw [hyn]
  · unfold contributedRows
    rw [hfe]

/-- Witness for `C4_empty_file_excluded` at the file whose wind-speed
column is entirely empty while directions are present. -/
theorem C4_empty_file_excluded_witness :
    fileEmptySpeed ∈ [fileEmptySpeed] ∧
    (fileEmptySpeed.rows.all fun r => r.wind_speed.isNone) = true ∧
    process_csv_data [fileEmptySpeed] = Except.ok (none, ["empty.csv"]) ∧
    (fileEmptySpeed.name ∈ ["empty.csv"] ∧
     processFile fileEmptySpeed = Except.ok FileResult.empty ∧
     contributedRows fileEmptySpeed = []) :=
  ⟨List.mem_cons_self _ _, by simp [fileEmptySpeed, recNoSpeed, recGood],
    process_csv_data_fileEmptySpeed,
    C4_empty_file_excluded (List.mem_cons_self _ _)
      (Or.inl (by simp [fileEmptySpeed, recNoSpeed, recGood]))
      process_csv_data_fileEmptySpeed⟩

/-- C5: when every uploaded file is classified non-contributing the
combiner returns the `None` sentinel together with the full list of file
names, and the pressed-button flow ends at the terminal "no valid data"
message (`st.stop()`), rendering nothing. -/
theorem C5_all_empty_sentinel {files : List UploadedFile}
    (h : ∀ f ∈ files, processFile f = Except.ok FileResult.empty) :
    process_csv_data files = Except.ok (none, files.map fun f => f.name) ∧
    mainFlow files = MainOutcome.noValidData := by
  have hm : mapExcept processNamed files =
      Except.ok (files.map fun f => (f.name, FileResult.empty)) :=
    mapExcept_all_ok fun f hf => processNamed_of_processFile (h f hf)
  have hp : process_csv_data files = Except.ok (none, files.map fun f => f.name) := by
    unfold process_csv_data
    rw [hm]
    dsimp only
    rw [filterMap_dfOf_empty, filterMap_badNameOf_empty]
    rfl
  refine ⟨hp, ?_⟩
  unfold mainFlow
  rw [hp]
  dsimp only
  rw [if_pos (by rw [List.length_map])]

/-- Witness for `C5_all_empty_sentinel` at a single non-contributing
file. -/
theorem C5_all_empty_sentinel_witness :
    (∀ f ∈ [fileEmptySpeed], processFile f = Except.ok FileResult.empty) ∧
    process_csv_data [fileEmptySpeed] =
      Except.ok (none, [fileEmptySpeed].map fun f => f.name) ∧
    mainFlow [fileEmptySpeed] = MainOutcome.noValidData := by
  have hall : ∀ f ∈ [fileEmptySpeed], processFile f = Except.ok FileResult.empty := by
    intro f hf
    rw [List.mem_singleton] at hf
    subst hf
    exact processFile_fileEmptySpeed_eq
  exact ⟨hall, C5_all_empty_sentinel hall⟩

/-- C7: for a band whose subset of the unified dataset is empty, the
standalone plot returns no figure (`None`) and the per-band page section
shows only the informational message — no chart and no download
button. -/
theorem C7_empty_band_no_figure {data : List Row} {b : SpeedRange}
    (h : bandMask data b = []) :
    plot_single_wind_rose data b.min b.max b.title = none ∧
    bandSection data b = BandView.noDataMessage b.title := by
  have hmask : (data.filter fun r => inBand r.wind_speed ⟨b.min, b.max, ""⟩) = [] := by
    rw [List.filter_congr fun x _ => inBand_title_irrel x.wind_speed b ""]
    exact h
  have hp : plot_single_wind_rose data b.min b.max b.title = none := by
    unfold plot_single_wind_rose
    dsimp only
    rw [hmask]
    rfl
  refine ⟨hp, ?_⟩
  unfold bandSection
  rw [hp]

/-- Witness for `C7_empty_band_no_figure`: a dataset with a single
7.2-kt row has an empty 1–5 kt band. -/
theorem C7_empty_band_no_figure_witness :
    bandMask [row72] ⟨1, some 5, "Velocidade: 1-5 kt"⟩ = [] ∧
    plot_single_wind_rose [row72] (1 : ℚ) (some 5) "Velocidade: 1-5 kt" = none ∧
    bandSection [row72] ⟨1, some 5, "Velocidade: 1-5 kt"⟩ =
      BandView.noDataMessage "Velocidade: 1-5 kt" := by
  have h1 : inBand ((36 : ℚ) / 5) ⟨1, some 5, "Velocidade: 1-5 kt"⟩ = false :=
    inBand_false_of_ge rfl (by norm_num)
  have hmask : bandMask [row72] ⟨1, some 5, "Velocidade: 1-5 kt"⟩ = [] := by
    simp [bandMask, row72, h1]
  exact ⟨hmask, (C7_empty_band_no_figure hmask).1, (C7_empty_band_no_figure hmask).2⟩

/-- C8: for two contributing files A uploaded before B, the unified
dataset is exactly A's rows followed by B's rows (upload order between
files, original order within each file), with no warning entry and no
deduplication — `++` retains duplicate rows. -/
theorem C8_concat_order {A B : UploadedFile} {rowsA rowsB : List Row}
    (hA : processFile A = Except.ok (FileResult.contributing rowsA))
    (hB : processFile B = Except.ok (FileResult.contributing rowsB)) :
    process_csv_data [A, B] = Except.ok (some (rowsA ++ rowsB), []) := by
  have hm : mapExcept processNamed [A, B] = Except.ok
      [(A.name, FileResult.contributing rowsA),
       (B.name, FileResult.contributing rowsB)] := by
    rw [mapExcept_cons, processNamed_of_processFile hA, mapExcept_cons,
      processNamed_of_processFile hB, mapExcept_nil]
  unfold process_csv_data
  rw [hm]
  dsimp only
  simp [dfOf, badNameOf, List.filterMap_cons]

/-- Witness for `C8_concat_order`: two one-row files with identical rows;
the duplicate row is retained twice. -/
theorem C8_concat_order_witness :
    processFile fileB = Except.ok (FileResult.contributing [rowGood]) ∧
    processFile fileC = Except.ok (FileResult.contributing [rowGood]) ∧
    process_csv_data [fileB, fileC] = Except.ok (some [rowGood, rowGood], []) := by
  refine ⟨processFile_fileB_eq, processFile_fileC_eq, ?_⟩
  have h := C8_concat_order processFile_fileB_eq processFile_fileC_eq
  simpa using h

/-- C9: wind directions that parse as numbers are passed through
unchanged — no clamping, wrapping, or modulo into [0, 360): every
surviving row's `wind_dir` equals exactly the parsed raw value. -/
theorem C9_direction_passthrough {f : UploadedFile} {rows : List Row} {r : Row}
    (hp : processFile f = Except.ok (FileResult.contributing rows)) (hr : r ∈ rows) :
    ∃ d, toNumericLocale r.raw.wind_dir = some d ∧ r.wind_dir = d := by
  unfold processFile at hp
  cases hm : mapExcept (fun r => (computeDatetime r).map fun dt => (r, dt)) f.rows with
  | error e => rw [hm] at hp; cases hp
  | ok rows1 =>
    rw [hm] at hp
    dsimp only at hp
    by_cases hempty : ((f.rows.all fun r => r.wind_speed.isNone) ||
        (f.rows.all fun r => r.wind_dir.isNone)) = true
    · rw [if_pos hempty] at hp
      simp at hp
    · rw [if_neg hempty] at hp
      simp only [Except.ok.injEq, FileResult.contributing.injEq] at hp
      subst hp
      obtain ⟨p, -, hcp⟩ := List.mem_filterMap.mp hr
      unfold coerceRow at hcp
      cases hs : toNumericLocale p.1.wind_speed with
      | none => rw [hs] at hcp; cases hcp
      | some v =>
        rw [hs] at hcp
        cases hd : toNumericLocale p.1.wind_dir with
        | none => rw [hd] at hcp; cases hcp
        | some d =>
          rw [hd] at hcp
          cases hcp
          exact ⟨d, hd, rfl⟩

/-- Witness for `C9_direction_passthrough`: the out-of-range direction
400.5° survives unchanged. -/
theorem C9_direction_passthrough_witness :
    processFile fileDir400 = Except.ok (FileResult.contributing [rowDir400]) ∧
    rowDir400.wind_dir = (400.5 : ℚ) ∧
    (∃ d, toNumericLocale rowDir400.raw.wind_dir = some d ∧ rowDir400.wind_dir = d) :=
  ⟨processFile_fileDir400_eq, rfl,
    C9_direction_passthrough processFile_fileDir400_eq (List.mem_cons_self _ _)⟩

theorem bandAt_get (i : Fin 6) : bandAt i = speed_ranges.get (Fin.cast rfl i) := by
  fin_cases i <;> rfl

theorem plot_combined_row72 :
    plot_combined_wind_roses [row72] = [(2, "Velocidade: 6-10 kt")] := by
  have h1 : inBand ((36 : ℚ) / 5) ⟨1, some 5, "Velocidade: 1-5 kt"⟩ = false :=
    inBand_false_of_ge rfl (by norm_num)
  have h2 : inBand ((36 : ℚ) / 5) ⟨6, some 10, "Velocidade: 6-10 kt"⟩ = true :=
    inBand_true_of (by norm_num) (by intro m hm; cases hm; norm_num)
  have h3 : inBand ((36 : ℚ) / 5) ⟨11, some 15, "Velocidade: 11-15 kt"⟩ = false :=
    inBand_false_of_lt (by norm_num)
  have h4 : inBand ((36 : ℚ) / 5) ⟨16, some 20, "Velocidade: 16-20 kt"⟩ = false :=
    inBand_false_of_lt (by norm_num)
  have h5 : inBand ((36 : ℚ) / 5) ⟨21, some 30, "Velocidade: 21-30 kt"⟩ = false :=
    inBand_false_of_lt (by norm_num)
  have h6 : inBand ((36 : ℚ) / 5) ⟨31, none, "Velocidade: > 30 kt"⟩ = false :=
    inBand_false_of_lt (by norm_num)
  simp [plot_combined_wind_roses, speed_ranges, bandMask, row72, List.enum, List.enumFrom,
    h1, h2, h3, h4, h5, h6]

/-- C6 (counterexample): for a dataset with a single 7.2-kt row, only the
6–10 kt band is non-empty, and its lone panel is drawn at grid position
2: the positions used are not the contiguous `1..k` that renumbering
panels to skip empties would produce — position 1 is left gapped. -/
theorem C6_counterexample :
    plot_combined_wind_roses [row72] = [(2, "Velocidade: 6-10 kt")] ∧
    (plot_combined_wind_roses [row72]).map Prod.fst ≠
      List.range' 1 (plot_combined_wind_roses [row72]).length := by
  refine ⟨plot_combined_row72, ?_⟩
  rw [plot_combined_row72]
  simp

/-- C6 (amended): the combined figure draws no placeholder panel for an
empty band, but does not renumber/reflow either: a panel appears at grid
position `i + 1` exactly when band `i` is non-empty (and bears that
band's title), so a skipped band leaves its own grid position unused. -/
theorem C6_no_reflow (data : List Row) (i : Fin 6) (t : String) :
    ((i.val + 1, t) ∈ plot_combined_wind_roses data ↔
      (bandMask data (bandAt i) ≠ [] ∧ t = (bandAt i).title)) := by
  have hmem : ∀ k : Nat, ∀ s : String, ((k, s) ∈ plot_combined_wind_roses data ↔
      ∃ p, p ∈ (speed_ranges.enum.map fun q => (q.1 + 1, q.2)) ∧
        (if (bandMask data p.2).length = 0 then none else some (p.1, p.2.title)) =
          some (k, s)) := by
    intro k s
    unfold plot_combined_wind_roses
    exact List.mem_filterMap
  have hL : (speed_ranges.enum.map fun q => (q.1 + 1, q.2)) =
      [(1, ⟨1, some 5, "Velocidade: 1-5 kt"⟩), (2, ⟨6, some 10, "Velocidade: 6-10 kt"⟩),
       (3, ⟨11, some 15, "Velocidade: 11-15 kt"⟩),
       (4, ⟨16, some 20, "Velocidade: 16-20 kt"⟩),
       (5, ⟨21, some 30, "Velocidade: 21-30 kt"⟩),
       (6, ⟨31, none, "Velocidade: > 30 kt"⟩)] := rfl
  obtain ⟨iv, hiv⟩ := i
  interval_cases iv <;>
  · simp only [bandAt]
    rw [hmem, hL]
    simp only [List.mem_cons, List.not_mem_nil, or_false]
    constructor
    · rintro ⟨p, hp, hgp⟩
      rcases hp with rfl | rfl | rfl | rfl | rfl | rfl <;> split_ifs at hgp with hz <;>
        simp at hgp
      exact ⟨fun hc => hz (List.length_eq_zero.mpr hc), hgp.symm⟩
    · rintro ⟨hne, rfl⟩
      have hfn : ∀ b : SpeedRange, bandMask data b ≠ [] → ∀ k : Nat,
          (if (bandMask data b).length = 0 then none else some (k, b.title)) =
            some (k, b.title) :=
        fun b hb k => if_neg fun hz => hb (List.length_eq_zero.mp hz)
      first
        | exact ⟨_, Or.inl rfl, hfn _ hne _⟩
        | exact ⟨_, Or.inr (Or.inl rfl), hfn _ hne _⟩
        | exact ⟨_, Or.inr (Or.inr (Or.inl rfl)), hfn _ hne _⟩
        | exact ⟨_, Or.inr (Or.inr (Or.inr (Or.inl rfl))), hfn _ hne _⟩
        | exact ⟨_, Or.inr (Or.inr (Or.inr (Or.inr (Or.inl rfl)))), hfn _ hne _⟩
        | exact ⟨_, Or.inr (Or.inr (Or.inr (Or.inr (Or.inr rfl)))), hfn _ hne _⟩

/-- C10: a file that passes the whole-file emptiness check (some non-null
wind speed and some non-null direction) but whose every row is dropped by
numeric coercion contributes an empty dataframe to the combination: it is
not listed among the non-contributing names, the combiner returns a
non-sentinel (possibly zero-row) dataset, and the "no valid data" branch
is not taken. -/
theorem C10_coercion_dropped_file {files : List UploadedFile} {f : UploadedFile}
    {res : Option (List Row)} {bad : List String}
    (hf : f ∈ files)
    (hnodup : (files.map fun g => g.name).Nodup)
    (hspeed : (f.rows.all fun r => r.wind_speed.isNone) = false)
    (hdir : (f.rows.all fun r => r.wind_dir.isNone) = false)
    (hdrop : ∀ r ∈ f.rows, toNumericLocale r.wind_speed = none ∨
      toNumericLocale r.wind_dir = none)
    (hok : process_csv_data files = Except.ok (res, bad)) :
    processFile f = Except.ok (FileResult.contributing []) ∧
    f.name ∉ bad ∧ res ≠ none ∧ mainFlow files ≠ MainOutcome.noValidData := by
  obtain ⟨results, hm, hbad, hres⟩ := process_csv_data_ok hok
  obtain ⟨y, hy, hym⟩ := mapExcept_ok_of_mem hm hf
  obtain ⟨hpf, hyn⟩ := processNamed_ok hy
  have hcf : processFile f = Except.ok (FileResult.contributing []) := by
    unfold processFile at hpf ⊢
    cases hmr : mapExcept (fun r => (computeDatetime r).map fun dt => (r, dt)) f.rows with
    | error e => rw [hmr] at hpf; cases hpf
    | ok rows1 =>
      dsimp only
      rw [if_neg (by rw [hspeed, hdir]; simp)]
      have hnone : ∀ p ∈ rows1, coerceRow p = none := by
        intro p hp
        obtain ⟨r, hrmem, hgr⟩ := mapExcept_mem_of_ok hmr hp
        have hp1 : p.1 = r := by
          cases hcd : computeDatetime r with
          | error e => rw [hcd] at hgr; simp [Except.map] at hgr
          | ok dt =>
            rw [hcd] at hgr
            simp only [Except.map, Except.ok.injEq] at hgr
            rw [← hgr]
        unfold coerceRow
        rcases hdrop p.1 (by rw [hp1]; exact hrmem) with hno | hno <;> rw [hno]
        cases toNumericLocale p.1.wind_speed <;> rfl
      rw [List.filterMap_eq_nil_iff.mpr hnone]
  have hy2 : y.2 = FileResult.contributing [] := by
    have h2 := hcf.symm.trans hpf
    exact (Except.ok.inj h2).symm
  have hnotbad : f.name ∉ bad := by
    rw [hbad]
    intro hmem2
    obtain ⟨p, hpm, hpb⟩ := List.mem_filterMap.mp hmem2
    have hp2 : p.2 = FileResult.empty ∧ p.1 = f.name := by
      unfold badNameOf at hpb
      cases hq : p.2 with
      | contributing rs => rw [hq] at hpb; cases hpb
      | empty =>
        rw [hq] at hpb
        exact ⟨rfl, Option.some.inj hpb⟩
    obtain ⟨g, hgm, hgok⟩ := mapExcept_mem_of_ok hm hpm
    obtain ⟨hgpf, hgn⟩ := processNamed_ok hgok
    have hgf : g = f :=
      List.inj_on_of_nodup_map hnodup hgm hf (by rw [← hgn]; exact hp2.2)
    rw [hgf] at hgpf
    rw [hp2.1] at hgpf
    exact absurd (hcf.symm.trans hgpf) (by simp)
  have hdfpos : 0 < (results.filterMap dfOf).length := by
    have hin : ([] : List Row) ∈ results.filterMap dfOf := by
      refine List.mem_filterMap.mpr ⟨y, hym, ?_⟩
      unfold dfOf
      rw [hy2]
    exact List.length_pos_of_mem hin
  have hres2 : res = some (results.filterMap dfOf).flatten := by
    rcases hres with ⟨hz, -⟩ | ⟨-, hr⟩
    · omega
    · exact hr
  have hblen : bad.length < files.length := by
    have hsplit := df_bad_length_split results
    have hrl : results.length = files.length := mapExcept_ok_length hm
    have hbl : bad.length = (results.filterMap badNameOf).length := by rw [hbad]
    omega
  refine ⟨hcf, hnotbad, by rw [hres2]; simp, ?_⟩
  intro hcon
  unfold mainFlow at hcon
  rw [hok] at hcon
  dsimp only at hcon
  rw [if_neg (show ¬bad.length = files.length by omega)] at hcon
  rw [hres2] at hcon
  cases hcon

/-- Witness for `C10_coercion_dropped_file`: a one-row file whose wind
speed `"abc"` fails coercion while both wind columns are non-null. -/
theorem C10_coercion_dropped_file_witness :
    fileAllDropped ∈ [fileAllDropped] ∧
    ([fileAllDropped].map fun g => g.name).Nodup ∧
    (fileAllDropped.rows.all fun r => r.wind_speed.isNone) = false ∧
    (fileAllDropped.rows.all fun r => r.wind_dir.isNone) = false ∧
    (∀ r ∈ fileAllDropped.rows, toNumericLocale r.wind_speed = none ∨
      toNumericLocale r.wind_dir = none) ∧
    process_csv_data [fileAllDropped] = Except.ok (some [], []) ∧
    (processFile fileAllDropped = Except.ok (FileResult.contributing []) ∧
     fileAllDropped.name ∉ ([] : List String) ∧ some ([] : List Row) ≠ none ∧
     mainFlow [fileAllDropped] ≠ MainOutcome.noValidData) := by
  have hdrop : ∀ r ∈ fileAllDropped.rows, toNumericLocale r.wind_speed = none ∨
      toNumericLocale r.wind_dir = none := by
    intro r hr
    rw [show fileAllDropped.rows = [recBadSpeed] from rfl, List.mem_singleton] at hr
    subst hr
    left
    simp [toNumericLocale, replaceChar, parseDecimal, parseUnsignedDecimal, splitOnChar,
      parseDigits, digitVal, recBadSpeed, recGood]
  refine ⟨List.mem_cons_self _ _, by simp, by simp [fileAllDropped, recBadSpeed, recGood],
    by simp [fileAllDropped, recBadSpeed, recGood], hdrop, process_csv_data_fileAllDropped,
    C10_coercion_dropped_file (List.mem_cons_self _ _) (by simp)
      (by simp [fileAllDropped, recBadSpeed, recGood])
      (by simp [fileAllDropped, recBadSpeed, recGood]) hdrop
      process_csv_data_fileAllDropped⟩

end WindRose
